import Mathlib

/-!
Verification development for the Klipper log analyzer
(`klipper_log_analyzer.py`).  The Python source is shallowly embedded:

* every regular-expression pattern of the source is hand-translated into
  an executable recognizer over `List Char`, following Python `re`
  semantics (anchored `re.match` with trailing text allowed, `re.findall`
  left-to-right non-overlapping scanning, greedy / lazy repetition with
  backtracking worked out per pattern — every pattern here is in fact
  deterministic, as argued in the comments);
* Python floats are modelled by exact rationals `ℚ` (plus explicit
  `inf` / `nan` tags where Python's `float()` would produce them);
* Python dicts are modelled by insertion-ordered association lists with
  update-in-place semantics;
* exceptions (`ValueError` from `float()`, `TypeError` from comparing
  mixed types) are modelled with `Except String`.
-/

/-! ### Character classes and basic scanning helpers -/

/-- Python `\w` for the ASCII text found in these logs: letters, digits, `_`. -/
def isWordChar (c : Char) : Bool := c.isAlphanum || c = '_'

/-- The character class `[0-9.-]` used by the numeric captures. -/
def isNumChar (c : Char) : Bool := c.isDigit || c = '.' || c = '-'

/-- Value of a non-empty run of decimal digits. -/
def natOfDigits (ds : List Char) : Nat :=
  ds.foldl (fun a c => a * 10 + (c.toNat - 48)) 0

/-- If `p` is a literal pattern that matches at the head of `s`, return the
remainder of `s`; otherwise `none`. -/
def dropLit : List Char → List Char → Option (List Char)
  | [], s => some s
  | _ :: _, [] => none
  | p :: ps, c :: cs => if p = c then dropLit ps cs else none

/-- Split at the first occurrence of character `c`: lazy `(.*?)c`.  Returns
the text before the first `c` and the text after it. -/
def splitAtFirst (c : Char) : List Char → Option (List Char × List Char)
  | [] => none
  | x :: xs =>
    if x = c then some ([], xs)
    else (splitAtFirst c xs).map (fun p => (x :: p.1, p.2))

/-- Case-insensitive helper: lower-case a character list. -/
def lcList (s : List Char) : List Char := s.map Char.toLower

/-- Lower-case a string (`str.lower()` for the ASCII patterns involved). -/
def lcString (s : String) : String := String.mk (lcList s.data)

/-- `needle` occurs as a contiguous substring of `hay` (`re.search` with a
literal pattern). -/
def isSubstrB (needle : List Char) : List Char → Bool
  | [] => needle.isEmpty
  | c :: cs => needle.isPrefixOf (c :: cs) || isSubstrB needle cs

/-- `re.search(p, line, re.IGNORECASE)` for a purely alphabetic literal
pattern `p`: case-insensitive substring test. -/
def ciHit (p : String) (line : String) : Bool :=
  isSubstrB (lcList p.data) (lcList line.data)

/-! ### Python float values

The scanned values are either numbers or strings; `float()` on the tokens
reachable here can also produce `inf` / `nan` (from the bare-word values
`inf`, `Infinity`, `nan` in the generic key=value scan). -/

inductive PyVal where
  | num (q : ℚ)
  | str (s : String)
  | inf
  | nan
deriving DecidableEq, Repr, Inhabited

/-- Python `float()` on a token drawn from the class `[0-9.-]+`:
an optional leading `-`, then digits with at most one `.`, at least one
digit overall.  Everything else (`-`, `.`, `1.2.3`, `1-2`, …) raises
`ValueError`, modelled as `none`.  Tokens with other characters are
rejected as well (`float("abc")` raises). -/
def pyFloat? (v : List Char) : Option ℚ :=
  let neg := match v with | '-' :: _ => true | _ => false
  let t := match v with | '-' :: t => t | t => t
  if t = [] then none
  else if !(t.all fun c => c.isDigit || c = '.') then none
  else
    let ip := t.takeWhile Char.isDigit
    let r := t.drop ip.length
    match r with
    | [] => some ((if neg then -1 else 1) * (natOfDigits ip : ℚ))
    | '.' :: fr =>
      if fr.all Char.isDigit then
        if ip = [] ∧ fr = [] then none
        else some ((if neg then -1 else 1) *
          ((natOfDigits ip : ℚ) + (natOfDigits fr : ℚ) / (10 ^ fr.length)))
      else none
    | _ => none

/-- Python `float()` on any token reachable from the generic key=value scan:
`inf` / `Infinity` / `nan` (case-insensitive, no sign — `\w+` cannot capture
`-`) succeed as non-finite floats, otherwise fall back to `pyFloat?`. -/
def pyFloatFull (v : List Char) : Option PyVal :=
  let lc := lcList v
  if lc = "inf".data ∨ lc = "infinity".data then some .inf
  else if lc = "nan".data then some .nan
  else (pyFloat? v).map .num

/-- Value stored by the generic key=value scan (lines 103-110 of the
source): `active` / `inactive` are kept as text, otherwise `float(value)`
is attempted and on `ValueError` the raw text is kept. -/
def kvValOf (v : List Char) : PyVal :=
  if v = "active".data ∨ v = "inactive".data then .str (String.mk v)
  else match pyFloatFull v with
    | some pv => pv
    | none => .str (String.mk v)

/-! ### The anchored `re.match` patterns -/

/-- `re.match(r"Loaded MCU '(\w+)' (\d+) commands \((.*?)\)", line)`.
`\w+` and `\d+` are greedy; since the characters that follow them in the
pattern (`'`, space) are outside their classes, no backtracking can occur,
so maximal-run scanning is exact.  `(.*?)\)` is the lazy split at the first
`)`.  Trailing text after the match is allowed (`re.match` is not
end-anchored).  Returns (name, command count, version info). -/
def matchLoadedMCU (s : List Char) : Option (List Char × Nat × List Char) :=
  match dropLit "Loaded MCU '".data s with
  | none => none
  | some r1 =>
    let name := r1.takeWhile isWordChar
    if name = [] then none else
    match dropLit "' ".data (r1.drop name.length) with
    | none => none
    | some r2 =>
      let ds := r2.takeWhile Char.isDigit
      if ds = [] then none else
      match dropLit " commands (".data (r2.drop ds.length) with
      | none => none
      | some r3 =>
        match splitAtFirst ')' r3 with
        | none => none
        | some (ver, _) => some (name, natOfDigits ds, ver)

/-- `re.match(r"MCU '(\w+)' config: (.*)", line)`: returns (name, config
data = rest of the line). -/
def matchMcuConfig (s : List Char) : Option (List Char × List Char) :=
  match dropLit "MCU '".data s with
  | none => none
  | some r1 =>
    let name := r1.takeWhile isWordChar
    if name = [] then none else
    match dropLit "' config: ".data (r1.drop name.length) with
    | none => none
    | some r2 => some (name, r2)

/-- `re.match(r"Configured MCU '(\w+)' \((\d+) moves\)", line)`:
returns (name, move count). -/
def matchConfiguredMCU (s : List Char) : Option (List Char × Nat) :=
  match dropLit "Configured MCU '".data s with
  | none => none
  | some r1 =>
    let name := r1.takeWhile isWordChar
    if name = [] then none else
    match dropLit "' (".data (r1.drop name.length) with
    | none => none
    | some r2 =>
      let ds := r2.takeWhile Char.isDigit
      if ds = [] then none else
      match dropLit " moves)".data (r2.drop ds.length) with
      | none => none
      | some _ => some (name, natOfDigits ds)

/-- Exact rational value of the decimal literal `ip [. fp]`. -/
def ratOfParts (ip fp : List Char) : ℚ :=
  (natOfDigits ip : ℚ) + (natOfDigits fp : ℚ) / (10 ^ fp.length)

/-- `re.match(r"Stats (\d+\.?\d*): (.*)", line)`.  The timestamp is a
greedy digit run, an optional dot, a greedy digit run; since `:` is
neither a digit nor a dot, backtracking can never rescue a failed `": "`,
so maximal-run scanning is exact.  Returns (timestamp value, remainder). -/
def matchStats (s : List Char) : Option (ℚ × List Char) :=
  match dropLit "Stats ".data s with
  | none => none
  | some r1 =>
    let ip := r1.takeWhile Char.isDigit
    if ip = [] then none else
    match r1.drop ip.length with
    | '.' :: r3 =>
      let fp := r3.takeWhile Char.isDigit
      match dropLit ": ".data (r3.drop fp.length) with
      | none => none
      | some rest => some (ratOfParts ip fp, rest)
    | r2 =>
      match dropLit ": ".data r2 with
      | none => none
      | some rest => some (ratOfParts ip [], rest)

/-- `re.match(r'^\[([^\]]+)\]$', line)`: a standalone section header — the
whole line is `[`, one or more non-`]` characters, `]`.  Returns the name. -/
def matchConfigHeader (s : List Char) : Option (List Char) :=
  match s with
  | '[' :: rest =>
    let name := rest.takeWhile (fun c => c ≠ ']')
    if name = [] then none
    else if rest.drop name.length = [']'] then some name
    else none
  | _ => none

/-! ### The `re.findall` sub-scans over the stats remainder

`re.findall` scans left to right: at each position it attempts an anchored
match; on success it records the captures and resumes after the match, on
failure it advances one character.  All four patterns consume at least one
character per match, so the input length is a valid fuel bound (the fuel
decreases by one per step while every step consumes at least one
character, hence the scan is never truncated). -/

/-- One anchored attempt of `(\w+)=([0-9.-]+|active|inactive|\w+)`:
the value tries the alternatives in order. -/
def tryValue (s : List Char) : Option (List Char × List Char) :=
  let num := s.takeWhile isNumChar
  if num ≠ [] then some (num, s.drop num.length)
  else match dropLit "active".data s with
  | some r => some ("active".data, r)
  | none =>
    match dropLit "inactive".data s with
    | some r => some ("inactive".data, r)
    | none =>
      let w := s.takeWhile isWordChar
      if w ≠ [] then some (w, s.drop w.length) else none

/-- Anchored attempt of the generic key=value pattern; on success returns
(key, value, remainder after the match). -/
def tryKV (s : List Char) : Option (List Char × List Char × List Char) :=
  let k := s.takeWhile isWordChar
  if k = [] then none else
  match s.drop k.length with
  | '=' :: rest =>
    match tryValue rest with
    | some (v, rest') => some (k, v, rest')
    | none => none
  | _ => none

/-- `re.findall` driver for the generic key=value pattern. -/
def kvScanAux : Nat → List Char → List (List Char × List Char)
  | 0, _ => []
  | _ + 1, [] => []
  | n + 1, c :: t =>
    match tryKV (c :: t) with
    | some (k, v, rest) => (k, v) :: kvScanAux n rest
    | none => kvScanAux n t

def kvScan (s : List Char) : List (List Char × List Char) :=
  kvScanAux s.length s

/-- Anchored attempt of `(\w+)<lit>([0-9.-]+)` where `<lit>` is the literal
middle part (`": temp="` or `": target="`). -/
def trySensor (lit : List Char) (s : List Char) :
    Option (List Char × List Char × List Char) :=
  let w := s.takeWhile isWordChar
  if w = [] then none else
  match dropLit lit (s.drop w.length) with
  | none => none
  | some r =>
    let num := r.takeWhile isNumChar
    if num = [] then none else some (w, num, r.drop num.length)

/-- `re.findall` driver for the sensor patterns. -/
def sensorScanAux (lit : List Char) : Nat → List Char → List (List Char × List Char)
  | 0, _ => []
  | _ + 1, [] => []
  | n + 1, c :: t =>
    match trySensor lit (c :: t) with
    | some (w, num, rest) => (w, num) :: sensorScanAux lit n rest
    | none => sensorScanAux lit n t

def sensorScan (lit : List Char) (s : List Char) : List (List Char × List Char) :=
  sensorScanAux lit s.length s

/-- The lazy `.*?pwm=([0-9.-]+)` tail of the pwm pattern: find the first
occurrence of `pwm=` that is followed by at least one `[0-9.-]` character
(lazy expansion retries one character further on every failure, including
a failure of the numeric capture). -/
def findPwm : List Char → Option (List Char × List Char)
  | [] => none
  | c :: rest =>
    match dropLit "pwm=".data (c :: rest) with
    | some after =>
      let num := after.takeWhile isNumChar
      if num = [] then findPwm rest else some (num, after.drop num.length)
    | none => findPwm rest

/-- Anchored attempt of `(\w+): .*?pwm=([0-9.-]+)`. -/
def tryPwm (s : List Char) : Option (List Char × List Char × List Char) :=
  let w := s.takeWhile isWordChar
  if w = [] then none else
  match dropLit ": ".data (s.drop w.length) with
  | none => none
  | some r =>
    match findPwm r with
    | some (num, rest) => some (w, num, rest)
    | none => none

/-- `re.findall` driver for the pwm pattern. -/
def pwmScanAux : Nat → List Char → List (List Char × List Char)
  | 0, _ => []
  | _ + 1, [] => []
  | n + 1, c :: t =>
    match tryPwm (c :: t) with
    | some (w, num, rest) => (w, num) :: pwmScanAux n rest
    | none => pwmScanAux n t

def pwmScan (s : List Char) : List (List Char × List Char) :=
  pwmScanAux s.length s

/-! ### Dicts: insertion-ordered association lists

Python dict assignment updates an existing key in place (keeping its
position) and otherwise appends; lookup returns the first (and, starting
from an empty dict, only) binding. -/

def dictInsert {α : Type} : List (String × α) → String → α → List (String × α)
  | [], k, v => [(k, v)]
  | (k', v') :: t, k, v =>
    if k' = k then (k', v) :: t else (k', v') :: dictInsert t k v

def dictGet? {α : Type} : List (String × α) → String → Option α
  | [], _ => none
  | (k', v) :: t, k => if k' = k then some v else dictGet? t k

/-- In-place mutation of the value stored under `k`
(`d[k]['field'] = ...` in the source). -/
def dictModify {α : Type} : List (String × α) → String → (α → α) → List (String × α)
  | [], _, _ => []
  | (k', v') :: t, k, f =>
    if k' = k then (k', f v') :: dictModify t k f else (k', v') :: dictModify t k f

/-! ### Typed records and analyzer state -/

/-- One parsed stats line: the open-ended mapping built by
`_parse_stats_line`, holding `timestamp`, `line_number` and every scanned
key. -/
abbrev Snapshot := List (String × PyVal)

/-- Descriptor stored in `self.mcu_configs` (created by a `Loaded MCU`
line; `config` / `moves` keys are added later, modelled as `Option`). -/
structure McuInfo where
  commands : Nat
  version_info : String
  line_number : Nat
  config : Option String
  moves : Option Nat
deriving DecidableEq, Repr

/-- Entry of `self.errors`. -/
structure ErrorEntry where
  line_number : Nat
  type : String
  message : String
deriving DecidableEq, Repr

/-- Entry of `self.config_sections`; `content` is declared but never
populated by the source. -/
structure ConfigSection where
  line_number : Nat
  content : List String
deriving DecidableEq, Repr

/-- Entry of `self.timeline` (only `mcu_load` events are ever appended). -/
structure TimelineEvent where
  line : Nat
  type : String
  mcu : String
  message : String
deriving DecidableEq, Repr

/-- The collections owned by one `KlipperLogAnalyzer` instance. -/
structure AnalyzerState where
  stats_data : List Snapshot
  mcu_configs : List (String × McuInfo)
  errors : List ErrorEntry
  config_sections : List (String × ConfigSection)
  timeline : List TimelineEvent
  performance_metrics : List (String × List PyVal)
deriving DecidableEq, Repr

/-- The freshly-constructed analyzer (`__init__`). -/
def emptyState : AnalyzerState := ⟨[], [], [], [], [], []⟩

/-- Unwrap a successful parse (used only to name concrete parsed states). -/
def okState (e : Except String AnalyzerState) : AnalyzerState :=
  match e with
  | .ok st => st
  | .error _ => emptyState

/-! ### Record builder: one method of the source per step function -/

/-- `_parse_mcu_info`, acting on the (mcu_configs, timeline) pair. -/
def mcuStep (mc : List (String × McuInfo)) (tl : List TimelineEvent)
    (line : String) (ln : Nat) : List (String × McuInfo) × List TimelineEvent :=
  let p1 :=
    match matchLoadedMCU line.data with
    | some (name, cmds, ver) =>
      (dictInsert mc (String.mk name)
        { commands := cmds, version_info := String.mk ver,
          line_number := ln, config := none, moves := none },
       tl ++ [{ line := ln, type := "mcu_load", mcu := String.mk name, message := line }])
    | none => (mc, tl)
  let p2 :=
    match matchMcuConfig line.data with
    | some (name, cfg) =>
      if (dictGet? p1.1 (String.mk name)).isSome then
        (dictModify p1.1 (String.mk name)
          (fun m => { m with config := some (String.mk cfg) }), p1.2)
      else p1
    | none => p1
  match matchConfiguredMCU line.data with
  | some (name, mv) =>
    if (dictGet? p2.1 (String.mk name)).isSome then
      (dictModify p2.1 (String.mk name) (fun m => { m with moves := some mv }), p2.2)
    else p2
  | none => p2

def parseMcuInfo (st : AnalyzerState) (line : String) (ln : Nat) : AnalyzerState :=
  { st with
    mcu_configs := (mcuStep st.mcu_configs st.timeline line ln).1
    timeline := (mcuStep st.mcu_configs st.timeline line ln).2 }

/-- Merge the generic key=value captures into the snapshot dict
(lines 102-110; never raises). -/
def applyKv (d : Snapshot) : List (List Char × List Char) → Snapshot
  | [] => d
  | (k, v) :: rest => applyKv (dictInsert d (String.mk k) (kvValOf v)) rest

/-- Merge a sensor sub-scan into the snapshot dict under
`<sensor><suffix>`; `float(value)` here has no exception handler, so a
failing parse raises `ValueError` (lines 113-125). -/
def applyFloatPairs (d : Snapshot) (pairs : List (List Char × List Char))
    (suffix : String) : Except String Snapshot :=
  match pairs with
  | [] => .ok d
  | (sensor, v) :: rest =>
    match pyFloat? v with
    | none => .error "ValueError"
    | some q =>
      applyFloatPairs (dictInsert d (String.mk sensor ++ suffix) (.num q)) rest suffix

/-- Build the stats dict for a recognized stats line: the four sub-scans
run independently over the same remainder, merged in order a→b→c→d. -/
def buildSnapshot (ts : ℚ) (ln : Nat) (content : List Char) : Except String Snapshot :=
  let d0 : Snapshot := [("timestamp", .num ts), ("line_number", .num (ln : ℚ))]
  let d1 := applyKv d0 (kvScan content)
  match applyFloatPairs d1 (sensorScan ": temp=".data content) "_temp" with
  | .error e => .error e
  | .ok d2 =>
    match applyFloatPairs d2 (sensorScan ": target=".data content) "_target" with
    | .error e => .error e
    | .ok d3 =>
      match applyFloatPairs d3 (pwmScan content) "_pwm" with
      | .error e => .error e
      | .ok d4 => .ok d4

/-- `_parse_stats_line` reduced to its produced snapshot: `none` when the
line is not a stats line, `error` when a `float()` call raises. -/
def statsStep (line : List Char) (ln : Nat) : Except String (Option Snapshot) :=
  match matchStats line with
  | none => .ok none
  | some (ts, content) =>
    match buildSnapshot ts ln content with
    | .error e => .error e
    | .ok d => .ok (some d)

/-- Lines 130-132: append the four tracked metrics to
`self.performance_metrics` (a `defaultdict(list)`). -/
def perfAppend (pm : List (String × List PyVal)) (k : String) (v : PyVal) :
    List (String × List PyVal) :=
  match dictGet? pm k with
  | some l => dictInsert pm k (l ++ [v])
  | none => pm ++ [(k, [v])]

def perfUpdate (pm : List (String × List PyVal)) (d : Snapshot) :
    List (String × List PyVal) :=
  ["freq", "sysload", "cputime", "memavail"].foldl
    (fun acc k => match dictGet? d k with
      | some v => perfAppend acc k v
      | none => acc) pm

def parseStatsLine (st : AnalyzerState) (line : String) (ln : Nat) :
    Except String AnalyzerState :=
  match statsStep line.data ln with
  | .error e => .error e
  | .ok none => .ok st
  | .ok (some d) =>
    .ok { st with
          stats_data := st.stats_data ++ [d]
          performance_metrics := perfUpdate st.performance_metrics d }

/-- `_parse_config_section`: unconditional dict assignment — a repeated
header overwrites the stored descriptor. -/
def parseConfigSection (st : AnalyzerState) (line : String) (ln : Nat) :
    AnalyzerState :=
  match matchConfigHeader line.data with
  | some name =>
    { st with config_sections :=
        dictInsert st.config_sections (String.mk name) { line_number := ln, content := [] } }
  | none => st

/-- The eight keyword patterns of `_parse_errors_warnings` (the upper-case
half is dead code under `re.IGNORECASE`, kept for fidelity). -/
def errorPatterns : List String :=
  ["error", "warning", "exception", "failed", "ERROR", "WARNING", "EXCEPTION", "FAILED"]

/-- The effective priority order of the keyword check. -/
def keywordPriority : List String := ["error", "warning", "exception", "failed"]

/-- `_parse_errors_warnings`: first case-insensitive substring hit wins,
one entry appended, tagged `pattern.lower()`. -/
def errStep (errs : List ErrorEntry) (line : String) (ln : Nat) : List ErrorEntry :=
  match errorPatterns.find? (fun p => ciHit p line) with
  | some p => errs ++ [{ line_number := ln, type := lcString p, message := line }]
  | none => errs

def parseErrorsWarnings (st : AnalyzerState) (line : String) (ln : Nat) :
    AnalyzerState :=
  { st with errors := errStep st.errors line ln }

/-- One iteration of the `parse_log` loop body for a non-empty stripped
line: the four sub-parsers in source order; a `ValueError` escaping
`_parse_stats_line` aborts the whole pass. -/
def processLine (st : AnalyzerState) (line : String) (ln : Nat) :
    Except String AnalyzerState :=
  match parseStatsLine (parseMcuInfo st line ln) line ln with
  | .error e => .error e
  | .ok st2 => .ok (parseErrorsWarnings (parseConfigSection st2 line ln) line ln)

/-- The `parse_log` loop: 1-based line numbers count every physical line,
lines are stripped, empty lines are skipped. -/
def parseLogAux : AnalyzerState → Nat → List String → Except String AnalyzerState
  | st, _, [] => .ok st
  | st, n, l :: ls =>
    let t := l.trim
    if t.isEmpty then parseLogAux st (n + 1) ls
    else
      match processLine st t (n + 1) with
      | .error e => .error e
      | .ok st' => parseLogAux st' (n + 1) ls

/-- `parse_log` on the file's lines. -/
def parseLog (lines : List String) : Except String AnalyzerState :=
  parseLogAux emptyState 0 lines

/-! ### Aggregation: the DataFrame views used by the reports

`pd.DataFrame(self.stats_data)` builds a sparse table; a column exists as
soon as any snapshot carries the key, a missing key is `NaN`.  Column
reads below are modelled directly over the snapshot list. -/

/-- `df[key]` restricted to the rows where the key is present (a missing
key would be `NaN`, which every pandas aggregation below skips). -/
def colVals (snaps : List Snapshot) (key : String) : List PyVal :=
  snaps.filterMap (fun d => dictGet? d key)

/-- `df[key].dropna()`: present values with genuine `NaN` entries removed
(a stored `float('nan')` is indistinguishable from a missing cell). -/
def dropNa (vs : List PyVal) : List PyVal := vs.filter (fun v => v ≠ PyVal.nan)

def colDropNa (snaps : List Snapshot) (key : String) : List PyVal :=
  dropNa (colVals snaps key)

/-- `key in df.columns`. -/
def colPresent (snaps : List Snapshot) (key : String) : Bool :=
  !(colVals snaps key).isEmpty

/-- Numeric view of a value list for pandas aggregations (`mean`, `min`,
`max` with default `skipna`): `NaN` entries are skipped; a string value
makes the column `object`-typed and the aggregation raise `TypeError`.
(A stored infinity would propagate through pandas instead; no log token
scanned into these columns can produce one, since `inf` only arises from
the bare-word branch and is modelled separately — reaching it here is
reported as an error.) -/
def numsOf : List PyVal → Except String (List ℚ)
  | [] => .ok []
  | .num q :: t => (numsOf t).map (fun l => q :: l)
  | .nan :: t => numsOf t
  | .str _ :: _ => .error "TypeError"
  | .inf :: _ => .error "nonfinite"

def listMin (l : List ℚ) : Option ℚ :=
  l.foldl (fun acc x => match acc with
    | none => some x
    | some m => some (min m x)) none

def listMax (l : List ℚ) : Option ℚ :=
  l.foldl (fun acc x => match acc with
    | none => some x
    | some m => some (max m x)) none

def ratSum (l : List ℚ) : ℚ := l.foldl (fun a b => a + b) 0

def ratMean (l : List ℚ) : ℚ := ratSum l / (l.length : ℚ)

/-- Python `>` on the values a metric column can hold: numbers compare
numerically (`inf` above every number, any comparison with `nan` false),
strings compare lexicographically, and a mixed number/string comparison
raises `TypeError`. -/
def pyGT : PyVal → PyVal → Except String Bool
  | .num a, .num b => .ok (decide (b < a))
  | .num _, .inf => .ok false
  | .inf, .num _ => .ok true
  | .inf, .inf => .ok false
  | .nan, .num _ => .ok false
  | .num _, .nan => .ok false
  | .nan, .nan => .ok false
  | .nan, .inf => .ok false
  | .inf, .nan => .ok false
  | .str a, .str b => .ok (decide (b < a))
  | _, _ => .error "TypeError"

/-- Line 198 of the source, for a non-empty `values = df[metric].dropna()`:
`'increasing' if values.iloc[-1] > values.iloc[0] else 'decreasing' if
len(values) > 1 else 'stable'`.  Note the chained conditional: the
`len(values) > 1` test guards only the choice between `'decreasing'` and
`'stable'` once the first comparison failed. -/
def trendOf (values : List PyVal) : Except String String :=
  match values.head?, values.getLast? with
  | some first, some last =>
    match pyGT last first with
    | .error e => .error e
    | .ok gt =>
      .ok (if gt then "increasing"
           else if values.length > 1 then "decreasing" else "stable")
  | _, _ => .error "IndexError"

/-- The `trend` field reported for `metric` by
`generate_performance_report` (only queried when the column exists and
has at least one non-missing value). -/
def perfTrend (snaps : List Snapshot) (metric : String) : Except String String :=
  trendOf (colDropNa snaps metric)

/-- Line 178: `df['timestamp'].max() - df['timestamp'].min() if len(df) > 1
else 0` (inside `generate_performance_report`, which is only reached with
at least one snapshot). -/
def perfTotalRuntime (snaps : List Snapshot) : Except String ℚ :=
  if snaps.length > 1 then
    match numsOf (colVals snaps "timestamp") with
    | .error e => .error e
    | .ok ts =>
      match listMax ts, listMin ts with
      | some mx, some mn => .ok (mx - mn)
      | _, _ => .error "IndexError"
  else .ok 0

/-- Line 180: `len(df) / (max - min) if len(df) > 1 and max > min else 0` —
the guarded stats frequency of the performance report. -/
def perfStatsFrequency (snaps : List Snapshot) : Except String ℚ :=
  if snaps.length > 1 then
    match numsOf (colVals snaps "timestamp") with
    | .error e => .error e
    | .ok ts =>
      match listMax ts, listMin ts with
      | some mx, some mn =>
        if mn < mx then .ok ((snaps.length : ℚ) / (mx - mn)) else .ok 0
      | _, _ => .error "IndexError"
  else .ok 0

/-- Line 342 of `generate_health_report` (reached whenever
`self.stats_data` is non-empty): the unguarded runtime
`df['timestamp'].max() - df['timestamp'].min()`. -/
def healthRuntime (snaps : List Snapshot) : Except String ℚ :=
  match numsOf (colVals snaps "timestamp") with
  | .error e => .error e
  | .ok ts =>
    match listMax ts, listMin ts with
    | some mx, some mn => .ok (mx - mn)
    | _, _ => .error "IndexError"

/-- Line 343: the unguarded `len(df) / (max - min)`.  With one snapshot the
denominator is the numpy float `0.0` and the positive numerator makes the
division yield `+inf` (numpy emits a RuntimeWarning, not an exception). -/
def healthStatsFrequency (snaps : List Snapshot) : Except String PyVal :=
  match numsOf (colVals snaps "timestamp") with
  | .error e => .error e
  | .ok ts =>
    match listMax ts, listMin ts with
    | some mx, some mn =>
      if mx - mn = 0 then .ok .inf
      else .ok (.num ((snaps.length : ℚ) / (mx - mn)))
    | _, _ => .error "IndexError"

/-! ### The recommendation rules of `generate_health_report`
(lines 411-435).  All four rules sit inside `if self.stats_data:`. -/

def recSysload : String := "Consider reducing print complexity or upgrading hardware"
def recMemavail : String := "Monitor memory usage - consider closing unnecessary processes"
def recErrors : String := "High error count detected - review printer configuration"
def recRxError : String := "Communication errors detected - check cables and connections"
def recHealthy : String := "System appears healthy - no immediate concerns"

/-- `if 'sysload' in df.columns and df['sysload'].mean() > 0.8`. -/
def ruleSysload (snaps : List Snapshot) : Except String (List String) :=
  if colPresent snaps "sysload" then
    match numsOf (colVals snaps "sysload") with
    | .error e => .error e
    | .ok vs =>
      match vs with
      | [] => .ok []
      | _ :: _ => .ok (if ratMean vs > 8 / 10 then [recSysload] else [])
  else .ok []

/-- `if 'memavail' in df.columns and df['memavail'].min() < 200000`. -/
def ruleMemavail (snaps : List Snapshot) : Except String (List String) :=
  if colPresent snaps "memavail" then
    match numsOf (colVals snaps "memavail") with
    | .error e => .error e
    | .ok vs =>
      match listMin vs with
      | some m => .ok (if m < 200000 then [recMemavail] else [])
      | none => .ok []
  else .ok []

/-- `if 'rx_error' in df.columns and (df['rx_error'].max() -
df['rx_error'].min()) > 5`. -/
def ruleRxError (snaps : List Snapshot) : Except String (List String) :=
  if colPresent snaps "rx_error" then
    match numsOf (colVals snaps "rx_error") with
    | .error e => .error e
    | .ok vs =>
      match listMax vs, listMin vs with
      | some mx, some mn => .ok (if mx - mn > 5 then [recRxError] else [])
      | _, _ => .ok []
  else .ok []

/-- Lines 414-432: the recommendation list of the health report.  The four
threshold rules run in source order, but only when at least one stats
snapshot exists; if the list stays empty a single healthy line is used. -/
def healthRecommendations (st : AnalyzerState) : Except String (List String) :=
  if st.stats_data = [] then .ok [recHealthy]
  else
    match ruleSysload st.stats_data with
    | .error e => .error e
    | .ok r1 =>
      match ruleMemavail st.stats_data with
      | .error e => .error e
      | .ok r2 =>
        let r3 := if 10 < st.errors.length then [recErrors] else []
        match ruleRxError st.stats_data with
        | .error e => .error e
        | .ok r4 =>
          let recs := r1 ++ r2 ++ r3 ++ r4
          .ok (if recs = [] then [recHealthy] else recs)

/-! ### Concrete logs used to evaluate the claims -/

/-- Two snapshots whose `freq` values are equal. -/
def c1lines : List String := ["Stats 1.0: freq=5000.0", "Stats 2.0: freq=5000.0"]

def c1st : AnalyzerState := okState (parseLog c1lines)

/-- A stats line whose sensor-temperature capture `1.2.3` is not a valid
float. -/
def c2line : String := "Stats 1.0: e: temp=1.2.3"

/-- A log with more than ten error lines and no stats line at all. -/
def c3lines : List String := List.replicate 11 "an error occurred"

def c3st : AnalyzerState := okState (parseLog c3lines)

/-- A log with one stats snapshot and more than ten error lines. -/
def c3glines : List String :=
  "Stats 1.0: sysload=0.1" :: List.replicate 11 "an error occurred"

def c3gst : AnalyzerState := okState (parseLog c3glines)

def c3grecs : List String :=
  match healthRecommendations c3gst with
  | .ok l => l
  | .error _ => []

/-- The same standalone section header on two different lines. -/
def c4lines : List String := ["[printer]", "[printer]"]

def c4st : AnalyzerState := okState (parseLog c4lines)

/-- A log with exactly one stats snapshot. -/
def c5lines : List String := ["Stats 10.5: sysload=0.5"]

def c5st : AnalyzerState := okState (parseLog c5lines)

/-- The stats line of the spec's own test property for C8. -/
def c8line : String := "Stats 100.0: extruder: temp=205.3 target=210.0 pwm=0.45"

def c8snap : Snapshot :=
  match statsStep c8line.data 1 with
  | .ok (some d) => d
  | _ => []

/-- A remainder where the generic scan (a) and the temp scan (b) collide
on the key `extruder_temp`; the later scan must win. -/
def c8collisionLine : String := "Stats 1.0: extruder_temp=1.0 extruder: temp=2.0"

def c8collisionSnap : Snapshot :=
  match statsStep c8collisionLine.data 1 with
  | .ok (some d) => d
  | _ => []

/-- A recognized stats line whose text contains `error` (an `rx_error`
communication counter). -/
def c9line : String := "Stats 1.0: rx_error=3"

def c9st : AnalyzerState :=
  match processLine emptyState c9line 1 with
  | .ok st => st
  | .error _ => emptyState

/-- A log that loads one MCU, for the frame claim. -/
def c10lines : List String := ["Loaded MCU 'mcu' 945 commands (v0.11.0)"]

def c10st : AnalyzerState := okState (parseLog c10lines)

/-! ### Helper lemmas -/

theorem dropLit_eq_append {p s r : List Char} (h : dropLit p s = some r) :
    s = p ++ r := by
  induction p generalizing s with
  | nil => simpa [dropLit] using h
  | cons a ps ih =>
    cases s with
    | nil => simp [dropLit] at h
    | cons c cs =>
      rw [dropLit] at h
      split at h
      · next hac => simpa [hac] using ih h
      · exact absurd h (by simp)

theorem dictGet?_insert_self {α : Type} (d : List (String × α)) (k : String) (v : α) :
    dictGet? (dictInsert d k v) k = some v := by
  induction d with
  | nil => simp [dictInsert, dictGet?]
  | cons kv t ih =>
    obtain ⟨k', v'⟩ := kv
    by_cases h : k' = k
    · subst h; simp [dictInsert, dictGet?]
    · simp [dictInsert, dictGet?, h, ih]

theorem dictGet?_insert_ne {α : Type} (d : List (String × α)) (k o : String) (v : α)
    (h : o ≠ k) : dictGet? (dictInsert d k v) o = dictGet? d o := by
  have hko : ¬k = o := fun hh => h hh.symm
  induction d with
  | nil => simp [dictInsert, dictGet?, hko]
  | cons kv t ih =>
    obtain ⟨k', v'⟩ := kv
    by_cases hk : k' = k
    · subst hk; simp [dictInsert, dictGet?, hko]
    · simp [dictInsert, dictGet?, hk, ih]

theorem dictGet?_modify_self {α : Type} (d : List (String × α)) (k : String)
    (f : α → α) : dictGet? (dictModify d k f) k = (dictGet? d k).map f := by
  induction d with
  | nil => simp [dictModify, dictGet?]
  | cons kv t ih =>
    obtain ⟨k', v'⟩ := kv
    by_cases h : k' = k
    · subst h; simp [dictModify, dictGet?]
    · simp [dictModify, dictGet?, h, ih]

theorem dictGet?_modify_ne {α : Type} (d : List (String × α)) (k o : String)
    (f : α → α) (h : o ≠ k) : dictGet? (dictModify d k f) o = dictGet? d o := by
  have hko : ¬k = o := fun hh => h hh.symm
  induction d with
  | nil => simp [dictModify, dictGet?]
  | cons kv t ih =>
    obtain ⟨k', v'⟩ := kv
    by_cases hk : k' = k
    · subst hk; simp [dictModify, dictGet?, hko, ih]
    · simp [dictModify, dictGet?, hk, ih]

/-- The three anchored MCU patterns are pairwise exclusive: their literal
prefixes differ in the first character.  A config match rules out a load
match… -/
theorem loaded_none_of_config {s : List Char} {x : List Char × List Char}
    (h : matchMcuConfig s = some x) : matchLoadedMCU s = none := by
  rw [matchMcuConfig] at h
  cases hd : dropLit "MCU '".data s with
  | none => rw [hd] at h; exact absurd h (by simp)
  | some r => rw [dropLit_eq_append hd]; rfl

/-- …and a configured match as well. -/
theorem loaded_none_of_configured {s : List Char} {x : List Char × Nat}
    (h : matchConfiguredMCU s = some x) : matchLoadedMCU s = none := by
  rw [matchConfiguredMCU] at h
  cases hd : dropLit "Configured MCU '".data s with
  | none => rw [hd] at h; exact absurd h (by simp)
  | some r => rw [dropLit_eq_append hd]; rfl

theorem configured_none_of_config {s : List Char} {x : List Char × List Char}
    (h : matchMcuConfig s = some x) : matchConfiguredMCU s = none := by
  rw [matchMcuConfig] at h
  cases hd : dropLit "MCU '".data s with
  | none => rw [hd] at h; exact absurd h (by simp)
  | some r => rw [dropLit_eq_append hd]; rfl

theorem config_none_of_configured {s : List Char} {x : List Char × Nat}
    (h : matchConfiguredMCU s = some x) : matchMcuConfig s = none := by
  rw [matchConfiguredMCU] at h
  cases hd : dropLit "Configured MCU '".data s with
  | none => rw [hd] at h; exact absurd h (by simp)
  | some r => rw [dropLit_eq_append hd]; rfl

/-! ### Frame lemmas: each sub-parser touches only its own collections -/

theorem parseMcuInfo_errors (st : AnalyzerState) (line : String) (ln : Nat) :
    (parseMcuInfo st line ln).errors = st.errors := rfl

theorem parseMcuInfo_stats (st : AnalyzerState) (line : String) (ln : Nat) :
    (parseMcuInfo st line ln).stats_data = st.stats_data := rfl

theorem parseConfigSection_errors (st : AnalyzerState) (line : String) (ln : Nat) :
    (parseConfigSection st line ln).errors = st.errors := by
  cases hm : matchConfigHeader line.data <;> simp [parseConfigSection, hm]

theorem parseConfigSection_stats (st : AnalyzerState) (line : String) (ln : Nat) :
    (parseConfigSection st line ln).stats_data = st.stats_data := by
  cases hm : matchConfigHeader line.data <;> simp [parseConfigSection, hm]

theorem parseErrorsWarnings_stats (st : AnalyzerState) (line : String) (ln : Nat) :
    (parseErrorsWarnings st line ln).stats_data = st.stats_data := rfl

theorem parseErrorsWarnings_errors (st : AnalyzerState) (line : String) (ln : Nat) :
    (parseErrorsWarnings st line ln).errors = errStep st.errors line ln := rfl

/-- A successful `_parse_stats_line` step on a recognized stats line
appends exactly one snapshot and leaves the error list alone. -/
theorem parseStatsLine_ok_shape {st st' : AnalyzerState} {line : String} {ln : Nat}
    {ts : ℚ} {content : List Char}
    (hm : matchStats line.data = some (ts, content))
    (h : parseStatsLine st line ln = .ok st') :
    st'.errors = st.errors ∧ ∃ d, st'.stats_data = st.stats_data ++ [d] := by
  unfold parseStatsLine statsStep at h
  rw [hm] at h
  cases hb : buildSnapshot ts ln content with
  | error e => simp [hb] at h
  | ok d =>
    simp only [hb, Except.ok.injEq] at h
    subst h
    exact ⟨rfl, d, rfl⟩

/-- On a recognized stats line, `_parse_stats_line` either raises
`ValueError` or appends a snapshot — it never silently skips. -/
theorem statsStep_ne_ok_none {line : List Char} {ln : Nat} {ts : ℚ}
    {content : List Char} (hm : matchStats line = some (ts, content)) :
    statsStep line ln ≠ .ok none := by
  unfold statsStep
  rw [hm]
  cases hb : buildSnapshot ts ln content <;> simp [hb]

/-- If the highest-priority keyword `error` occurs (case-insensitively) in
the line, the eight-pattern search of `_parse_errors_warnings` stops at
its first entry. -/
theorem errorPatterns_find_error {line : String} (h : ciHit "error" line = true) :
    errorPatterns.find? (fun p => ciHit p line) = some "error" := by
  have hp : (fun p => ciHit p line) "error" = true := h
  simp [errorPatterns, List.find?_cons, hp]

set_option maxRecDepth 8000

/-! ### Claim theorems -/

/-- C1: the claim says a performance metric whose first and last observed
values are equal gets trend `stable`.  The chained conditional on line 198
instead reports `decreasing` for any series of two or more values whose
last value does not exceed its first — including a constant series.  On
the two-snapshot log `c1lines` the `freq` column is `[5000, 5000]` (first
and last equal) and the reported trend is `decreasing`, not `stable`. -/
theorem claim_C1_trend_on_equal_values :
    parseLog c1lines = .ok c1st ∧
    colDropNa c1st.stats_data "freq" = [.num 5000, .num 5000] ∧
    perfTrend c1st.stats_data "freq" = .ok "decreasing" := by
  refine ⟨?_, ?_, ?_⟩ <;> with_unfolding_all rfl

/-- C2: the claim says a stats value that fails to parse as a float is
kept as a string for all four sub-scans and no exception escapes.  The
string fallback exists only in the generic key=value scan; the sensor
temp/target/pwm scans call `float()` bare, so the line
`Stats 1.0: e: temp=1.2.3` raises `ValueError` out of the whole parse,
while the same malformed number in a generic pair is kept as a string. -/
theorem claim_C2_temp_scan_raises :
    parseLog [c2line] = .error "ValueError" ∧
    statsStep "Stats 1.0: x=1.2.3".data 1 =
      .ok (some [("timestamp", .num 1), ("line_number", .num 1),
                 ("x", .str "1.2.3")]) := by
  refine ⟨?_, ?_⟩ <;> with_unfolding_all rfl

/-- C3 counterexample: the claim says more than 10 errors always yields
the review-configuration recommendation, even with no stats snapshots.
On a log of 11 error lines and no stats line, all four recommendation
rules are skipped (they sit inside `if self.stats_data:`) and the report
emits the single `appears healthy` line instead. -/
theorem claim_C3_counterexample :
    c3st.errors.length = 11 ∧ c3st.stats_data = [] ∧
    healthRecommendations c3st = .ok [recHealthy] ∧
    recErrors ≠ recHealthy := by
  refine ⟨?_, ?_, ?_, ?_⟩ <;> first
    | with_unfolding_all rfl
    | decide

/-- C4 counterexample: the claim says the first occurrence of a section
header wins for the stored line number.  `_parse_config_section` assigns
unconditionally, so on a log with `[printer]` on lines 1 and 2 the stored
descriptor carries line 2, not line 1. -/
theorem claim_C4_counterexample :
    dictGet? c4st.config_sections "printer" =
      some { line_number := 2, content := [] } ∧
    dictGet? c4st.config_sections "printer" ≠
      some { line_number := 1, content := [] } := by
  refine ⟨?_, ?_⟩
  · with_unfolding_all rfl
  · intro hcontra
    have h1 : dictGet? c4st.config_sections "printer" =
        some { line_number := 2, content := [] } := by with_unfolding_all rfl
    rw [h1] at hcontra
    simp at hcontra

/-- C4 amended: re-declaring a section overwrites its descriptor, so the
stored line number is always that of the most recent occurrence of the
header. -/
theorem claim_C4_amended (st : AnalyzerState) (line : String) (ln : Nat)
    (name : List Char) (h : matchConfigHeader line.data = some name) :
    dictGet? (parseConfigSection st line ln).config_sections (String.mk name) =
      some { line_number := ln, content := [] } := by
  unfold parseConfigSection
  rw [h]
  exact dictGet?_insert_self _ _ _

/-- Witness for the amended C4 at a concrete header and line number. -/
theorem claim_C4_amended_witness :
    dictGet? (parseConfigSection c4st "[printer]" 7).config_sections "printer" =
      some { line_number := 7, content := [] } :=
  claim_C4_amended c4st "[printer]" 7 "printer".data (by with_unfolding_all rfl)

/-- C5: the claim says runtime and frequency are exactly 0 in both reports
when fewer than two snapshots exist.  The performance report is guarded
and does report 0/0; the health report's performance summary divides
`len(df)` by the zero runtime unguarded, producing an infinite frequency
on a one-snapshot log instead of 0. -/
theorem claim_C5_health_frequency_divzero :
    c5st.stats_data.length = 1 ∧
    perfTotalRuntime c5st.stats_data = .ok 0 ∧
    perfStatsFrequency c5st.stats_data = .ok 0 ∧
    healthRuntime c5st.stats_data = .ok 0 ∧
    healthStatsFrequency c5st.stats_data = .ok .inf := by
  refine ⟨?_, ?_, ?_, ?_, ?_⟩ <;> with_unfolding_all rfl

/-- C8 counterexample: on the claim's own input
`extruder: temp=205.3 target=210.0 pwm=0.45` the snapshot has
`extruder_temp` and `extruder_pwm` but no `extruder_target`: the target
sub-scan requires `target=` to follow `sensor: ` immediately, and here
`temp=` does. -/
theorem claim_C8_counterexample :
    dictGet? c8snap "extruder_target" = none ∧
    dictGet? c8snap "extruder_temp" = some (.num (2053 / 10)) ∧
    dictGet? c8snap "extruder_pwm" = some (.num (9 / 20)) := by
  refine ⟨?_, ?_, ?_⟩ <;> with_unfolding_all rfl

/-- C8 amended: the full snapshot for the claim's input — the four
sub-scans are applied independently (the generic scan also stores the
bare `temp` / `target` / `pwm` keys) and merge last-write-wins in scan
order, as the second conjunct shows on a genuine key collision where the
temp scan (b) overwrites the value stored by the generic scan (a). -/
theorem claim_C8_amended :
    statsStep c8line.data 7 = .ok (some
      [("timestamp", .num 100), ("line_number", .num 7),
       ("temp", .num (2053 / 10)), ("target", .num 210), ("pwm", .num (9 / 20)),
       ("extruder_temp", .num (2053 / 10)), ("extruder_pwm", .num (9 / 20))]) ∧
    statsStep c8collisionLine.data 1 = .ok (some
      [("timestamp", .num 1), ("line_number", .num 1),
       ("extruder_temp", .num 2), ("temp", .num 2)]) := by
  refine ⟨?_, ?_⟩ <;> with_unfolding_all rfl

/-- C6: a line matching two or more of the error keywords
(case-insensitively) gets exactly one `ErrorEntry`, appended at the end of
the error list, tagged with the earliest matching keyword in the priority
order error, warning, exception, failed; the loop breaks at the first hit. -/
theorem claim_C6_priority (st : AnalyzerState) (line : String) (ln : Nat)
    (k : String)
    (hfind : keywordPriority.find? (fun p => ciHit p line) = some k)
    (_htwo : 2 ≤ (keywordPriority.filter (fun p => ciHit p line)).length) :
    (parseErrorsWarnings st line ln).errors =
      st.errors ++ [{ line_number := ln, type := k, message := line }] := by
  show errStep st.errors line ln = _
  unfold errStep
  by_cases h1 : ciHit "error" line
  · have hk : "error" = k := by
      simpa [keywordPriority, List.find?_cons, h1] using hfind
    subst hk
    rw [show errorPatterns.find? (fun p => ciHit p line) = some "error" by
      simp [errorPatterns, List.find?_cons, h1]]
    with_unfolding_all rfl
  · by_cases h2 : ciHit "warning" line
    · have hk : "warning" = k := by
        simpa [keywordPriority, List.find?_cons, h1, h2] using hfind
      subst hk
      rw [show errorPatterns.find? (fun p => ciHit p line) = some "warning" by
        simp [errorPatterns, List.find?_cons, h1, h2]]
      with_unfolding_all rfl
    · by_cases h3 : ciHit "exception" line
      · have hk : "exception" = k := by
          simpa [keywordPriority, List.find?_cons, h1, h2, h3] using hfind
        subst hk
        rw [show errorPatterns.find? (fun p => ciHit p line) = some "exception" by
          simp [errorPatterns, List.find?_cons, h1, h2, h3]]
        with_unfolding_all rfl
      · by_cases h4 : ciHit "failed" line
        · have hk : "failed" = k := by
            simpa [keywordPriority, List.find?_cons, h1, h2, h3, h4] using hfind
          subst hk
          rw [show errorPatterns.find? (fun p => ciHit p line) = some "failed" by
            simp [errorPatterns, List.find?_cons, h1, h2, h3, h4]]
          with_unfolding_all rfl
        · simp [keywordPriority, List.find?_cons, h1, h2, h3, h4] at hfind

/-- Witness for C6: a line containing both `Error` and `warning` produces
one entry of category `error`. -/
theorem claim_C6_priority_witness :
    (parseErrorsWarnings emptyState "Error: heater warning" 1).errors =
      emptyState.errors ++
        [{ line_number := 1, type := "error", message := "Error: heater warning" }] :=
  claim_C6_priority emptyState "Error: heater warning" 1 "error"
    (by with_unfolding_all rfl) (by with_unfolding_all decide)

/-- C7: an `MCU 'X' config: ...` or `Configured MCU 'X' (N moves)` line
whose name has no descriptor leaves the analyzer state entirely unchanged
(in particular the MCU collection); a descriptor created by a later
`Loaded MCU 'X'` line is therefore unaffected by the earlier line. -/
theorem claim_C7_unknown_mcu_noop (st : AnalyzerState) (line : String) (ln : Nat)
    (name : List Char)
    (h : (∃ cfg, matchMcuConfig line.data = some (name, cfg)) ∨
         (∃ mv, matchConfiguredMCU line.data = some (name, mv)))
    (habs : dictGet? st.mcu_configs (String.mk name) = none) :
    parseMcuInfo st line ln = st := by
  rcases h with ⟨cfg, hc⟩ | ⟨mv, hc⟩
  · have hL := loaded_none_of_config hc
    have hC := configured_none_of_config hc
    unfold parseMcuInfo mcuStep
    rw [hL, hc, hC]
    simp [habs]
  · have hL := loaded_none_of_configured hc
    have hM := config_none_of_configured hc
    unfold parseMcuInfo mcuStep
    rw [hL, hM, hc]
    simp [habs]

/-- Witness for C7: a config line for the never-loaded MCU `mcu` is a
no-op on the fresh analyzer. -/
theorem claim_C7_unknown_mcu_noop_witness :
    parseMcuInfo emptyState "MCU 'mcu' config: ADC_MAX=4095" 1 = emptyState :=
  claim_C7_unknown_mcu_noop emptyState "MCU 'mcu' config: ADC_MAX=4095" 1 "mcu".data
    (Or.inl ⟨"ADC_MAX=4095".data, by with_unfolding_all rfl⟩)
    (by with_unfolding_all rfl)

/-- C9: the error-keyword check runs on every line independently, so a
successfully processed stats line whose text contains `error` (such as a
snapshot reporting `rx_error`) both appends its snapshot and appends one
`ErrorEntry` of category `error` — the highest-priority keyword wins. -/
theorem claim_C9_stats_error_entry (st st' : AnalyzerState) (line : String)
    (ln : Nat) (ts : ℚ) (content : List Char)
    (hstats : matchStats line.data = some (ts, content))
    (herr : ciHit "error" line = true)
    (hok : processLine st line ln = .ok st') :
    st'.errors = st.errors ++ [{ line_number := ln, type := "error", message := line }] ∧
    st'.stats_data.length = st.stats_data.length + 1 := by
  unfold processLine at hok
  cases hps : parseStatsLine (parseMcuInfo st line ln) line ln with
  | error e => rw [hps] at hok; exact absurd hok (by simp)
  | ok st2 =>
    rw [hps] at hok
    simp only [Except.ok.injEq] at hok
    subst hok
    obtain ⟨he2, d, hd⟩ := parseStatsLine_ok_shape hstats hps
    constructor
    · rw [parseErrorsWarnings_errors, parseConfigSection_errors, he2,
        parseMcuInfo_errors]
      unfold errStep
      rw [errorPatterns_find_error herr]
      with_unfolding_all rfl
    · rw [parseErrorsWarnings_stats, parseConfigSection_stats, hd,
        parseMcuInfo_stats]
      simp

/-- Witness for C9: the stats line `Stats 1.0: rx_error=3` is recorded as
a snapshot and as an `error` entry. -/
theorem claim_C9_stats_error_entry_witness :
    c9st.errors =
      emptyState.errors ++ [{ line_number := 1, type := "error", message := c9line }] ∧
    c9st.stats_data.length = emptyState.stats_data.length + 1 :=
  claim_C9_stats_error_entry emptyState c9st c9line 1 1 "rx_error=3".data
    (by with_unfolding_all rfl) (by with_unfolding_all rfl)
    (by with_unfolding_all rfl)

/-- C10: on an existing descriptor, an `MCU 'X' config:` match updates
only the `config` field and a `Configured MCU 'X' (N moves)` match only
the `moves` field — command count, version info and first-seen line number
are carried over unchanged, and every other MCU's descriptor is untouched. -/
theorem claim_C10_frame (st : AnalyzerState) (line : String) (ln : Nat)
    (name : List Char) (m : McuInfo)
    (hm : dictGet? st.mcu_configs (String.mk name) = some m) :
    (∀ cfg, matchMcuConfig line.data = some (name, cfg) →
      dictGet? (parseMcuInfo st line ln).mcu_configs (String.mk name) =
        some { m with config := some (String.mk cfg) } ∧
      ∀ o, o ≠ String.mk name →
        dictGet? (parseMcuInfo st line ln).mcu_configs o =
          dictGet? st.mcu_configs o) ∧
    (∀ mv, matchConfiguredMCU line.data = some (name, mv) →
      dictGet? (parseMcuInfo st line ln).mcu_configs (String.mk name) =
        some { m with moves := some mv } ∧
      ∀ o, o ≠ String.mk name →
        dictGet? (parseMcuInfo st line ln).mcu_configs o =
          dictGet? st.mcu_configs o) := by
  constructor
  · intro cfg hc
    have hL := loaded_none_of_config hc
    have hC := configured_none_of_config hc
    have hmc : (parseMcuInfo st line ln).mcu_configs =
        dictModify st.mcu_configs (String.mk name)
          (fun x => { x with config := some (String.mk cfg) }) := by
      unfold parseMcuInfo mcuStep
      rw [hL, hc, hC]
      simp [hm]
    rw [hmc]
    refine ⟨?_, ?_⟩
    · rw [dictGet?_modify_self, hm]; rfl
    · intro o ho
      exact dictGet?_modify_ne _ _ _ _ ho
  · intro mv hc
    have hL := loaded_none_of_configured hc
    have hM := config_none_of_configured hc
    have hmc : (parseMcuInfo st line ln).mcu_configs =
        dictModify st.mcu_configs (String.mk name)
          (fun x => { x with moves := some mv }) := by
      unfold parseMcuInfo mcuStep
      rw [hL, hM, hc]
      simp [hm]
    rw [hmc]
    refine ⟨?_, ?_⟩
    · rw [dictGet?_modify_self, hm]; rfl
    · intro o ho
      exact dictGet?_modify_ne _ _ _ _ ho

/-- Witness for C10: after loading `mcu`, a config line fills in only the
`config` field of its descriptor. -/
theorem claim_C10_frame_witness :
    dictGet? (parseMcuInfo c10st "MCU 'mcu' config: ADC_MAX=4095" 2).mcu_configs
        "mcu" =
      some { commands := 945, version_info := "v0.11.0", line_number := 1,
             config := some "ADC_MAX=4095", moves := none } := by
  have h := (claim_C10_frame c10st "MCU 'mcu' config: ADC_MAX=4095" 2 "mcu".data
      { commands := 945, version_info := "v0.11.0", line_number := 1,
        config := none, moves := none }
      (by with_unfolding_all rfl)).1 "ADC_MAX=4095".data (by with_unfolding_all rfl)
  exact h.1

/-- The sysload rule contributes either nothing or its fixed line. -/
theorem ruleSysload_sub {snaps : List Snapshot} {l : List String}
    (h : ruleSysload snaps = .ok l) : l = [] ∨ l = [recSysload] := by
  unfold ruleSysload at h
  split at h
  · cases hn : numsOf (colVals snaps "sysload") with
    | error e => simp [hn] at h
    | ok vs =>
      rw [hn] at h
      cases vs with
      | nil => simp only [Except.ok.injEq] at h; exact Or.inl h.symm
      | cons a t =>
        simp only [Except.ok.injEq] at h
        subst h
        by_cases hc : ratMean (a :: t) > 8 / 10 <;> simp [hc]
  · simp only [Except.ok.injEq] at h; exact Or.inl h.symm

/-- The memavail rule contributes either nothing or its fixed line. -/
theorem ruleMemavail_sub {snaps : List Snapshot} {l : List String}
    (h : ruleMemavail snaps = .ok l) : l = [] ∨ l = [recMemavail] := by
  unfold ruleMemavail at h
  split at h
  · cases hn : numsOf (colVals snaps "memavail") with
    | error e => simp [hn] at h
    | ok vs =>
      simp only [hn] at h
      cases hmin : listMin vs with
      | none =>
        simp only [hmin, Except.ok.injEq] at h
        first
          | exact Or.inl h
          | exact Or.inl h.symm
      | some m =>
        simp only [hmin, Except.ok.injEq] at h
        subst h
        by_cases hc : m < 200000 <;> simp [hc]
  · simp only [Except.ok.injEq] at h
    first
      | exact Or.inl h
      | exact Or.inl h.symm

/-- The rx_error rule contributes either nothing or its fixed line. -/
theorem ruleRxError_sub {snaps : List Snapshot} {l : List String}
    (h : ruleRxError snaps = .ok l) : l = [] ∨ l = [recRxError] := by
  unfold ruleRxError at h
  split at h
  · cases hn : numsOf (colVals snaps "rx_error") with
    | error e => simp [hn] at h
    | ok vs =>
      simp only [hn] at h
      cases hmax : listMax vs with
      | none =>
        simp only [hmax, Except.ok.injEq] at h
        first
          | exact Or.inl h
          | exact Or.inl h.symm
      | some mx =>
        simp only [hmax] at h
        cases hmin : listMin vs with
        | none =>
          simp only [hmin, Except.ok.injEq] at h
          first
            | exact Or.inl h
            | exact Or.inl h.symm
        | some mn =>
          simp only [hmin, Except.ok.injEq] at h
          subst h
          by_cases hc : mx - mn > 5 <;> simp [hc]
  · simp only [Except.ok.injEq] at h
    first
      | exact Or.inl h
      | exact Or.inl h.symm

/-- C3 amended: the recommendation rules are only evaluated when at least
one stats snapshot exists (a log without snapshots always gets the single
`appears healthy` line — see the counterexample); given one snapshot, the
rules are independent, and more than 10 errors puts the
review-configuration line in the list and keeps the healthy line out. -/
theorem claim_C3_amended (st : AnalyzerState) (recs : List String)
    (hs : st.stats_data ≠ [])
    (he : 10 < st.errors.length)
    (hr : healthRecommendations st = .ok recs) :
    recErrors ∈ recs ∧ recHealthy ∉ recs := by
  unfold healthRecommendations at hr
  rw [if_neg hs] at hr
  cases h1 : ruleSysload st.stats_data with
  | error e => simp [h1] at hr
  | ok r1 =>
    cases h2 : ruleMemavail st.stats_data with
    | error e => simp [h1, h2] at hr
    | ok r2 =>
      cases h4 : ruleRxError st.stats_data with
      | error e => simp [h1, h2, h4] at hr
      | ok r4 =>
        simp only [h1, h2, h4, if_pos he] at hr
        have hne : r1 ++ r2 ++ [recErrors] ++ r4 ≠ [] := by simp
        rw [if_neg hne] at hr
        simp only [Except.ok.injEq] at hr
        subst hr
        have hm1 : recHealthy ∉ r1 := by
          rcases ruleSysload_sub h1 with h | h <;> subst h <;> decide
        have hm2 : recHealthy ∉ r2 := by
          rcases ruleMemavail_sub h2 with h | h <;> subst h <;> decide
        have hm4 : recHealthy ∉ r4 := by
          rcases ruleRxError_sub h4 with h | h <;> subst h <;> decide
        constructor
        · simp
        · intro hmem
          rcases List.mem_append.mp hmem with hmem | hmem
          · rcases List.mem_append.mp hmem with hmem | hmem
            · rcases List.mem_append.mp hmem with hmem | hmem
              · exact hm1 hmem
              · exact hm2 hmem
            · have : recHealthy = recErrors := by simpa using hmem
              exact absurd this (by decide)
          · exact hm4 hmem

/-- Witness for the amended C3: one snapshot plus eleven error lines yields
the review-configuration recommendation and no healthy line. -/
theorem claim_C3_amended_witness :
    recErrors ∈ c3grecs ∧ recHealthy ∉ c3grecs :=
  claim_C3_amended c3gst c3grecs (by with_unfolding_all decide)
    (by with_unfolding_all decide) (by with_unfolding_all rfl)
